import Mathlib

/-!
Verification of the `loan-calcs` package (files `loan_calcs/data.py` and
`loan_calcs/loans.py`) against its natural-language specification.

Embedding conventions:
* Python `Decimal` values are modelled as exact rationals (`ℚ`); the package
  stores all money and rate values as exact decimals, and every concrete
  value appearing in the claims is an exact decimal, so rational arithmetic
  is the intended semantics.
* Integer-valued quantities (repayment counts, periods passed to the
  amortised-rate helper) are modelled as `ℤ`.
* Python exceptions are modelled with the `PyError` type; functions that can
  raise return `Except PyError α`.  A call of a function with a `None`
  argument that Python would fault on (`None < 0`, `Decimal(1) + None`,
  `None * x`, ...) is modelled as `PyError.typeError`.
* Optional (possibly-`None`) arguments are `Option` values.  Python
  truthiness tests (`x if x else None`) are modelled explicitly: `None` and
  `0` are both falsy.
* `math.log` is modelled as `Real.log`; `math.ceil` as `Int.ceil`.
-/

/-- The Python exceptions that the package can raise.
`typeError` stands for `TypeError` raised by operations on `None`
(no message is modelled); `valueError` is `ValueError` (the spec's
"InvalidArgument"); `assertionError` is `AssertionError` (the spec's
"InvariantViolation"; a bare `assert` carries the empty message);
`notImplementedError` is `NotImplementedError` (the spec's
"NotImplemented"). -/
inductive PyError where
  | typeError : PyError
  | valueError (msg : String) : PyError
  | assertionError (msg : String) : PyError
  | notImplementedError (msg : String) : PyError
deriving DecidableEq

/-- `data.InterestApplyMethod`: whether the interest is applied before or
after the repayment.  `BEFORE = 0`, `AFTER = 1`. -/
inductive InterestApplyMethod where
  | BEFORE : InterestApplyMethod
  | AFTER : InterestApplyMethod
deriving DecidableEq

/-- The `.value` attribute of the enum member (`BEFORE.value = 0`,
`AFTER.value = 1`), used as an exponent in the loan formulas. -/
def InterestApplyMethod.value : InterestApplyMethod → ℤ
  | .BEFORE => 0
  | .AFTER => 1

/-- `data.InterestRateType`: metadata only, does not affect any formula. -/
inductive InterestRateType where
  | VARIABLE : InterestRateType
  | FIXED : InterestRateType
deriving DecidableEq

/-- `data.RepaymentType`: the tag distinguishing the three concrete `Loan`
subclasses. -/
inductive RepaymentType where
  | FIXED_REPAYMENT : RepaymentType
  | FIXED_PRINCIPAL : RepaymentType
  | INTEREST_ONLY : RepaymentType
deriving DecidableEq

/-- `data._calculate_amortised_rate(interest_rate, n)`: raises
`AssertionError` when `n < 0`, otherwise returns `(1 + interest_rate) ^ n`. -/
def calculate_amortised_rate (interest_rate : ℚ) (n : ℤ) : Except PyError ℚ :=
  if n < 0 then
    .error (.assertionError "The amortise rate period has to be positive.")
  else
    .ok ((1 + interest_rate) ^ n)

/-- `data._calculate_amortised_rate` as invoked from `Loan.build`, where
either argument may be `None`.  Python first evaluates `n < 0`, which raises
`TypeError` when `n` is `None`; when `n ≥ 0` it evaluates
`(Decimal(1) + interest_rate) ** n`, which raises `TypeError` when
`interest_rate` is `None`. -/
def calculate_amortised_rate_opt (interest_rate : Option ℚ) (n : Option ℤ) :
    Except PyError ℚ :=
  match n with
  | none => .error .typeError
  | some m =>
    if m < 0 then
      .error (.assertionError "The amortise rate period has to be positive.")
    else
      match interest_rate with
      | none => .error .typeError
      | some r => .ok ((1 + r) ^ m)

/-- Models `_to_decimal(x) if x else None` from `Loan.build`'s keyword
bundle: a `None` or zero (falsy) decimal argument becomes `None`. -/
def truthy_decimal (x : Option ℚ) : Option ℚ :=
  match x with
  | none => none
  | some v => if v = 0 then none else some v

/-- Models `int(x) if x else None` from `Loan.build`'s keyword bundle: a
`None` or zero (falsy) count becomes `None`. -/
def truthy_int (x : Option ℤ) : Option ℤ :=
  match x with
  | none => none
  | some v => if v = 0 then none else some v

/-- The state stored by `Loan.__init__` / `Loan.build__all`: the four core
parameters (all converted to exact decimals, `total_repayments` included)
plus the two enums. -/
structure LoanData where
  loan_amount : ℚ
  interest_rate : ℚ
  total_repayments : ℚ
  periodic_repayment : ℚ
  before_or_after : InterestApplyMethod
  interest_rate_type : InterestRateType
deriving DecidableEq

/-- `Loan.build__all`: direct construction from the four resolved values;
`total_repayments` (an `int`) is converted to a decimal.  No formula
computation. -/
def Loan.build__all (loan_amount interest_rate : ℚ) (total_repayments : ℤ)
    (fixed_periodic_repayment : ℚ) (before_or_after : InterestApplyMethod)
    (interest_rate_type : InterestRateType) : LoanData :=
  { loan_amount := loan_amount
    interest_rate := interest_rate
    total_repayments := (total_repayments : ℚ)
    periodic_repayment := fixed_periodic_repayment
    before_or_after := before_or_after
    interest_rate_type := interest_rate_type }

/-- The keyword bundle (`kwargs`) assembled by `Loan.build` and passed to
the variants' `_build__calculate_*` formulas.  The decimal arguments have
been filtered through Python truthiness (`x if x else None`), the count
through `int(x) if x else None`, and `total_amortised_rate` has already
been computed successfully. -/
structure BuildKwargs where
  loan_amount : Option ℚ
  interest_rate : Option ℚ
  total_repayments : Option ℤ
  fixed_periodic_repayment : Option ℚ
  before_or_after : InterestApplyMethod
  total_amortised_rate : ℚ

/-- `FixedRepaymentLoan._build__calculate_loan_amount` core formula:
`L = P * R^(b-1) * (A - 1) / A` where `A` is the total amortised rate. -/
def FixedRepaymentLoan.calculate_loan_amount (interest_rate
    fixed_periodic_repayment total_amortised_rate : ℚ)
    (before_or_after : InterestApplyMethod) : ℚ :=
  fixed_periodic_repayment * interest_rate ^ (before_or_after.value - 1) *
    (total_amortised_rate - 1) / total_amortised_rate

/-- `FixedRepaymentLoan._build__calculate_fixed_periodic_repayment` core
formula: `P = R^(1-b) * L * A / (A - 1)`. -/
def FixedRepaymentLoan.calculate_fixed_periodic_repayment (loan_amount
    interest_rate total_amortised_rate : ℚ)
    (before_or_after : InterestApplyMethod) : ℚ :=
  interest_rate ^ (1 - before_or_after.value) * loan_amount *
    total_amortised_rate / (total_amortised_rate - 1)

/-- `FixedRepaymentLoan._build__calculate_total_repayments`: computes the
denominator `P - L * R^(1-b)`, raises `ValueError` when it is `≤ 0`, and
otherwise returns `ceil(log(P / denominator) / log(R + 1))`. -/
noncomputable def FixedRepaymentLoan.calculate_total_repayments
    (loan_amount fixed_periodic_repayment interest_rate : ℚ)
    (before_or_after : InterestApplyMethod) : Except PyError ℤ :=
  let denominator : ℚ :=
    fixed_periodic_repayment -
      loan_amount * interest_rate ^ (1 - before_or_after.value)
  if denominator ≤ 0 then
    .error (.valueError
      "The values of the loan amount, interest rate, and periodic repayment lead to an unbounded number of repayments.")
  else
    .ok ⌈Real.log ((fixed_periodic_repayment : ℝ) / (denominator : ℝ)) /
          Real.log ((interest_rate : ℝ) + 1)⌉

/-- Renders a rational with exactly four digits after the decimal point,
rounding half to even, as Python's `f"{x:.4f}"` does for a `Decimal`. -/
def format_4f (x : ℚ) : String :=
  let scaled : ℚ := x * 10000
  let fl : ℤ := ⌊scaled⌋
  let r : ℚ := scaled - (fl : ℚ)
  let n : ℤ :=
    if r < 1/2 then fl
    else if 1/2 < r then fl + 1
    else if fl % 2 = 0 then fl else fl + 1
  let sign : String := if n < 0 then "-" else ""
  let a : ℕ := n.natAbs
  let ipart : ℕ := a / 10000
  let fpart : ℕ := a % 10000
  let pad : String :=
    if fpart < 10 then "000"
    else if fpart < 100 then "00"
    else if fpart < 1000 then "0"
    else ""
  sign ++ toString ipart ++ "." ++ pad ++ toString fpart

/-- The message of the `ValueError` raised by
`FixedPrincipalLoan.principal_repayment` and
`FixedPrincipalLoan._build__calculate_fixed_periodic_repayment` when a
custom periodic repayment exceeds `L/N` (both values formatted to 4 decimal
places). -/
def custom_periodic_repayment_error_msg (custom calculated : ℚ) : String :=
  "The custom periodic repayment amount, " ++ format_4f custom ++
    ", exceeds the maximum value allowed by the loan value and the number of repayments, " ++
    format_4f calculated

/-- `FixedPrincipalLoan.principal_repayment`: returns `L/N` when no custom
value is given; a custom value is rejected with `ValueError` when it
exceeds `L/N` and returned unchanged otherwise. -/
def FixedPrincipalLoan.principal_repayment (self : LoanData)
    (custom_periodic_repayment : Option ℚ) : Except PyError ℚ :=
  let calculated := self.loan_amount / self.total_repayments
  match custom_periodic_repayment with
  | none => .ok calculated
  | some custom =>
    if custom > calculated then
      .error (.valueError (custom_periodic_repayment_error_msg custom calculated))
    else
      .ok custom

/-- `FixedPrincipalLoan._build__calculate_loan_amount`: returns `P * N`
when no custom value is given; a custom value is rejected with
`ValueError` when it exceeds `P * N` and returned unchanged otherwise. -/
def FixedPrincipalLoan.calculate_loan_amount (total_repayments : ℤ)
    (fixed_periodic_repayment : ℚ) (custom_loan_amount : Option ℚ) :
    Except PyError ℚ :=
  let calculated := fixed_periodic_repayment * (total_repayments : ℚ)
  match custom_loan_amount with
  | none => .ok calculated
  | some custom =>
    if custom > calculated then
      .error (.valueError
        ("The custom loan amount, " ++ format_4f custom ++
          ", exceeds the minimum value allowed by the principal repayment amount and the number of repayments, " ++
          format_4f calculated))
    else
      .ok custom

/-- `FixedPrincipalLoan._build__calculate_fixed_periodic_repayment`:
returns `L/N` when no custom value is given; a custom value is rejected
with `ValueError` when it exceeds `L/N` and returned unchanged otherwise. -/
def FixedPrincipalLoan.calculate_fixed_periodic_repayment (loan_amount : ℚ)
    (total_repayments : ℤ) (custom_periodic_repayment : Option ℚ) :
    Except PyError ℚ :=
  let calculated := loan_amount / (total_repayments : ℚ)
  match custom_periodic_repayment with
  | none => .ok calculated
  | some custom =>
    if custom > calculated then
      .error (.valueError (custom_periodic_repayment_error_msg custom calculated))
    else
      .ok custom

/-- `FixedPrincipalLoan._build__calculate_total_repayments`: returns
`ceil(L / P)` when no custom value is given; a custom value is rejected
with `ValueError` when it exceeds `ceil(L / P)` and returned unchanged
otherwise. -/
def FixedPrincipalLoan.calculate_total_repayments (loan_amount
    fixed_periodic_repayment : ℚ) (custom_total_repayments : Option ℤ) :
    Except PyError ℤ :=
  let calculated : ℤ := ⌈loan_amount / fixed_periodic_repayment⌉
  match custom_total_repayments with
  | none => .ok calculated
  | some custom =>
    if custom > calculated then
      .error (.valueError
        ("The custom number of repayments, " ++ format_4f (custom : ℚ) ++
          ", exceeds the maximum value allowed by the loan value and the principal repayment value, " ++
          format_4f (calculated : ℚ)))
    else
      .ok custom

/-- `InterestOnlyLoan._build__calculate_loan_amount`: `L = P / R`. -/
def InterestOnlyLoan.calculate_loan_amount (fixed_periodic_repayment
    interest_rate : ℚ) : ℚ :=
  fixed_periodic_repayment / interest_rate

/-- `InterestOnlyLoan._build__calculate_fixed_periodic_repayment`:
`P = L * R`. -/
def InterestOnlyLoan.calculate_fixed_periodic_repayment (loan_amount
    interest_rate : ℚ) : ℚ :=
  loan_amount * interest_rate

/-- `InterestOnlyLoan._build__calculate_total_repayments`: the count must
already be supplied; raises `ValueError` when it is `None`. -/
def InterestOnlyLoan.calculate_total_repayments (total_repayments : Option ℤ) :
    Except PyError ℤ :=
  match total_repayments with
  | none => .error (.valueError
      "The total repayments must be supplied for an interest-only loan.")
  | some n => .ok n

/-- `FixedRepaymentLoan._build__calculate_loan_amount` as called from
`Loan.build` with the keyword bundle: the decimal arguments may be `None`,
in which case the arithmetic raises `TypeError`. -/
def FixedRepaymentLoan.build__calculate_loan_amount (kw : BuildKwargs) :
    Except PyError ℚ :=
  match kw.fixed_periodic_repayment, kw.interest_rate with
  | some fixed_periodic_repayment, some interest_rate =>
    .ok (FixedRepaymentLoan.calculate_loan_amount interest_rate
      fixed_periodic_repayment kw.total_amortised_rate kw.before_or_after)
  | _, _ => .error .typeError

/-- `FixedRepaymentLoan._build__calculate_fixed_periodic_repayment` as
called from `Loan.build` with the keyword bundle. -/
def FixedRepaymentLoan.build__calculate_fixed_periodic_repayment
    (kw : BuildKwargs) : Except PyError ℚ :=
  match kw.loan_amount, kw.interest_rate with
  | some loan_amount, some interest_rate =>
    .ok (FixedRepaymentLoan.calculate_fixed_periodic_repayment loan_amount
      interest_rate kw.total_amortised_rate kw.before_or_after)
  | _, _ => .error .typeError

/-- `FixedRepaymentLoan._build__calculate_total_repayments` as called from
`Loan.build` with the keyword bundle. -/
noncomputable def FixedRepaymentLoan.build__calculate_total_repayments
    (kw : BuildKwargs) : Except PyError ℤ :=
  match kw.loan_amount, kw.fixed_periodic_repayment, kw.interest_rate with
  | some loan_amount, some fixed_periodic_repayment, some interest_rate =>
    FixedRepaymentLoan.calculate_total_repayments loan_amount
      fixed_periodic_repayment interest_rate kw.before_or_after
  | _, _, _ => .error .typeError

/-- `FixedPrincipalLoan._build__calculate_loan_amount` as called from
`Loan.build` (no custom value is ever passed through `build`). -/
def FixedPrincipalLoan.build__calculate_loan_amount (kw : BuildKwargs) :
    Except PyError ℚ :=
  match kw.total_repayments, kw.fixed_periodic_repayment with
  | some total_repayments, some fixed_periodic_repayment =>
    FixedPrincipalLoan.calculate_loan_amount total_repayments
      fixed_periodic_repayment none
  | _, _ => .error .typeError

/-- `FixedPrincipalLoan._build__calculate_fixed_periodic_repayment` as
called from `Loan.build`. -/
def FixedPrincipalLoan.build__calculate_fixed_periodic_repayment
    (kw : BuildKwargs) : Except PyError ℚ :=
  match kw.loan_amount, kw.total_repayments with
  | some loan_amount, some total_repayments =>
    FixedPrincipalLoan.calculate_fixed_periodic_repayment loan_amount
      total_repayments none
  | _, _ => .error .typeError

/-- `FixedPrincipalLoan._build__calculate_total_repayments` as called from
`Loan.build`. -/
def FixedPrincipalLoan.build__calculate_total_repayments (kw : BuildKwargs) :
    Except PyError ℤ :=
  match kw.loan_amount, kw.fixed_periodic_repayment with
  | some loan_amount, some fixed_periodic_repayment =>
    FixedPrincipalLoan.calculate_total_repayments loan_amount
      fixed_periodic_repayment none
  | _, _ => .error .typeError

/-- `InterestOnlyLoan._build__calculate_loan_amount` as called from
`Loan.build`. -/
def InterestOnlyLoan.build__calculate_loan_amount (kw : BuildKwargs) :
    Except PyError ℚ :=
  match kw.fixed_periodic_repayment, kw.interest_rate with
  | some fixed_periodic_repayment, some interest_rate =>
    .ok (InterestOnlyLoan.calculate_loan_amount fixed_periodic_repayment
      interest_rate)
  | _, _ => .error .typeError

/-- `InterestOnlyLoan._build__calculate_fixed_periodic_repayment` as called
from `Loan.build`. -/
def InterestOnlyLoan.build__calculate_fixed_periodic_repayment
    (kw : BuildKwargs) : Except PyError ℚ :=
  match kw.loan_amount, kw.interest_rate with
  | some loan_amount, some interest_rate =>
    .ok (InterestOnlyLoan.calculate_fixed_periodic_repayment loan_amount
      interest_rate)
  | _, _ => .error .typeError

/-- `InterestOnlyLoan._build__calculate_total_repayments` as called from
`Loan.build`. -/
def InterestOnlyLoan.build__calculate_total_repayments (kw : BuildKwargs) :
    Except PyError ℤ :=
  InterestOnlyLoan.calculate_total_repayments kw.total_repayments

/-- Every variant defines `_build__calculate_interest_rate(self)` as a
plain instance method; `Loan.build` calls it as
`cls._build__calculate_interest_rate(**kwargs)`, which raises `TypeError`
("got an unexpected keyword argument") before the `NotImplementedError`
body can run. -/
def build__calculate_interest_rate (_cls : RepaymentType) (_kw : BuildKwargs) :
    Except PyError ℚ :=
  .error .typeError

/-- Dispatch of `cls._build__calculate_loan_amount(**kwargs)` on the three
concrete subclasses. -/
def build__calculate_loan_amount : RepaymentType → BuildKwargs →
    Except PyError ℚ
  | .FIXED_REPAYMENT, kw => FixedRepaymentLoan.build__calculate_loan_amount kw
  | .FIXED_PRINCIPAL, kw => FixedPrincipalLoan.build__calculate_loan_amount kw
  | .INTEREST_ONLY, kw => InterestOnlyLoan.build__calculate_loan_amount kw

/-- Dispatch of `cls._build__calculate_total_repayments(**kwargs)`. -/
noncomputable def build__calculate_total_repayments : RepaymentType →
    BuildKwargs → Except PyError ℤ
  | .FIXED_REPAYMENT, kw =>
    FixedRepaymentLoan.build__calculate_total_repayments kw
  | .FIXED_PRINCIPAL, kw =>
    FixedPrincipalLoan.build__calculate_total_repayments kw
  | .INTEREST_ONLY, kw => InterestOnlyLoan.build__calculate_total_repayments kw

/-- Dispatch of `cls._build__calculate_fixed_periodic_repayment(**kwargs)`. -/
def build__calculate_fixed_periodic_repayment : RepaymentType → BuildKwargs →
    Except PyError ℚ
  | .FIXED_REPAYMENT, kw =>
    FixedRepaymentLoan.build__calculate_fixed_periodic_repayment kw
  | .FIXED_PRINCIPAL, kw =>
    FixedPrincipalLoan.build__calculate_fixed_periodic_repayment kw
  | .INTEREST_ONLY, kw =>
    InterestOnlyLoan.build__calculate_fixed_periodic_repayment kw

/-- `Loan.build`, faithfully following the source order of evaluation:

1. the keyword bundle is assembled first, which invokes
   `_calculate_amortised_rate` on the truthiness-filtered interest rate and
   the *raw* `total_repayments` (so a missing or negative count, or a
   missing/zero rate, faults here before any validation);
2. if none of the four core arguments is `None`, `ValueError` is raised;
3. otherwise the first `None` argument in the order
   loan amount, interest rate, total repayments, periodic repayment is
   solved via the variant's formula, after a bare `assert` that the other
   three are not `None` (its failure raises `AssertionError` with no
   message);
4. the resolved values go to `Loan.build__all`.

The final `else: raise ValueError("Something has gone really wrong.")`
branch of the source is unreachable (all-`None`-free tuples are caught by
step 2) and is not modelled. -/
noncomputable def Loan.build (cls : RepaymentType) (loan_amount : Option ℚ)
    (interest_rate : Option ℚ) (total_repayments : Option ℤ)
    (fixed_periodic_repayment : Option ℚ)
    (before_or_after : InterestApplyMethod)
    (interest_rate_type : InterestRateType) : Except PyError LoanData :=
  match calculate_amortised_rate_opt (truthy_decimal interest_rate)
      total_repayments with
  | .error e => .error e
  | .ok tar =>
    let kwargs : BuildKwargs :=
      { loan_amount := truthy_decimal loan_amount
        interest_rate := truthy_decimal interest_rate
        total_repayments := truthy_int total_repayments
        fixed_periodic_repayment := truthy_decimal fixed_periodic_repayment
        before_or_after := before_or_after
        total_amortised_rate := tar }
    match loan_amount, interest_rate, total_repayments,
        fixed_periodic_repayment with
    | some _, some _, some _, some _ =>
      .error (.valueError "No validation for all not None arguments yet.")
    | none, some ir, some tr, some pr =>
      (match build__calculate_loan_amount cls kwargs with
       | .error e => .error e
       | .ok la => .ok (Loan.build__all la ir tr pr before_or_after
           interest_rate_type))
    | none, _, _, _ => .error (.assertionError "")
    | some la, none, some tr, some pr =>
      (match build__calculate_interest_rate cls kwargs with
       | .error e => .error e
       | .ok ir => .ok (Loan.build__all la ir tr pr before_or_after
           interest_rate_type))
    | some _, none, _, _ => .error (.assertionError "")
    | some la, some ir, none, some pr =>
      (match build__calculate_total_repayments cls kwargs with
       | .error e => .error e
       | .ok tr => .ok (Loan.build__all la ir tr pr before_or_after
           interest_rate_type))
    | some _, some _, none, none => .error (.assertionError "")
    | some la, some ir, some tr, none =>
      (match build__calculate_fixed_periodic_repayment cls kwargs with
       | .error e => .error e
       | .ok pr => .ok (Loan.build__all la ir tr pr before_or_after
           interest_rate_type))

/-- `FixedRepaymentLoan.calculate_balance_at_period`:
`B_n = L * (1+R)^n - P * R^(b-1) * ((1+R)^n - 1)`, where the amortised
rate is obtained from `_calculate_amortised_rate` (so a negative period
raises `AssertionError`). -/
def FixedRepaymentLoan.calculate_balance_at_period (self : LoanData)
    (period : ℤ) : Except PyError ℚ :=
  match calculate_amortised_rate self.interest_rate period with
  | .error e => .error e
  | .ok amortised_rate =>
    .ok (self.loan_amount * amortised_rate -
      self.periodic_repayment *
        self.interest_rate ^ (self.before_or_after.value - 1) *
        (amortised_rate - 1))

/-- `FixedRepaymentLoan.calculate_repayment_interest_at_period`:
`P_I(n) = B_(n-1) * R`. -/
def FixedRepaymentLoan.calculate_repayment_interest_at_period
    (self : LoanData) (period : ℤ) : Except PyError ℚ :=
  match FixedRepaymentLoan.calculate_balance_at_period self (period - 1) with
  | .error e => .error e
  | .ok balance => .ok (balance * self.interest_rate)

/-- `FixedRepaymentLoan.calculate_repayment_principal_at_period`:
`P_P(n) = P - P_I(n)`. -/
def FixedRepaymentLoan.calculate_repayment_principal_at_period
    (self : LoanData) (period : ℤ) : Except PyError ℚ :=
  match FixedRepaymentLoan.calculate_repayment_interest_at_period self
      period with
  | .error e => .error e
  | .ok interest => .ok (self.periodic_repayment - interest)

/-- `InterestOnlyLoan.calculate_balance_at_period`: `0` when the period
equals `total_repayments`, the full loan amount otherwise.  The period is
only compared for equality, so it may be any number. -/
def InterestOnlyLoan.calculate_balance_at_period (self : LoanData)
    (period : ℚ) : ℚ :=
  if period = self.total_repayments then 0 else self.loan_amount

/-- The spec's formula for the amortised-rate primitive, `(1 + rate) ^ n`,
stated independently of the source for comparison. -/
def spec_amortisedRate (rate : ℚ) (n : ℤ) : ℚ :=
  (1 + rate) ^ n

/-- The spec's closed form for the fixed-repayment total-repayments solver,
`N = ceil( ln(P / (P - L * R^(1-b))) / ln(1+R) )`, stated independently of
the source for comparison. -/
noncomputable def spec_fixed_repayment_total_repayments (L P R : ℝ) (b : ℤ) : ℤ :=
  ⌈Real.log (P / (P - L * R ^ (1 - b))) / Real.log (1 + R)⌉

/-- Whether a result is the `ValueError` the spec calls "InvalidArgument". -/
def PyError.is_value_error : PyError → Bool
  | .valueError _ => true
  | _ => false

/-- Whether a result is the `NotImplementedError` the spec calls
"NotImplemented". -/
def PyError.is_not_implemented : PyError → Bool
  | .notImplementedError _ => true
  | _ => false

/-- How many of the four core `build` arguments are `None`. -/
def noneCount (la ir : Option ℚ) (tr : Option ℤ) (pr : Option ℚ) : ℕ :=
  (if la = none then 1 else 0) + (if ir = none then 1 else 0) +
    (if tr = none then 1 else 0) + (if pr = none then 1 else 0)

/-- The error a `build` call with more than one missing core parameter
ends in, as a function of the interest-rate and total-repayments
arguments (the only ones the failing code inspects): a `TypeError` from
the amortised-rate precomputation when the count is `None`; the
amortised-rate assertion when the supplied count is negative; a
`TypeError` again when the count is fine but the rate is `None` or the
falsy `0`; otherwise (valid rate and count, so the loan amount and the
periodic repayment are the two missing ones) the bare `assert`'s
messageless `AssertionError`.  It is never a `ValueError`. -/
def build_arity_error (ir : Option ℚ) (tr : Option ℤ) : PyError :=
  match tr with
  | none => .typeError
  | some t =>
    if t < 0 then
      .assertionError "The amortise rate period has to be positive."
    else
      match truthy_decimal ir with
      | none => .typeError
      | some _ => .assertionError ""

/-- C8: the amortised-rate primitive returns `(1+R)^n` for every `n ≥ 0`
(in particular `1` at `n = 0`, for every rate `R`), and fails with the
`InvariantViolation` assertion "The amortise rate period has to be
positive." for every `n < 0`. -/
theorem c8_amortised_rate (R : ℚ) (n : ℤ) :
    (0 ≤ n → calculate_amortised_rate R n = .ok (spec_amortisedRate R n)) ∧
    calculate_amortised_rate R 0 = .ok 1 ∧
    (n < 0 → calculate_amortised_rate R n =
      .error (.assertionError "The amortise rate period has to be positive.")) := by
  refine ⟨fun h => ?_, ?_, fun h => ?_⟩
  · simp [calculate_amortised_rate, spec_amortisedRate, not_lt.mpr h]
  · simp [calculate_amortised_rate]
  · simp [calculate_amortised_rate, h]

/-- C8 witness: concrete instances of both branches. -/
theorem c8_witness :
    ((0:ℤ) ≤ 3 ∧ calculate_amortised_rate (1/20) 3 = .ok (spec_amortisedRate (1/20) 3)) ∧
    ((-1:ℤ) < 0 ∧ calculate_amortised_rate (1/20) (-1) =
      .error (.assertionError "The amortise rate period has to be positive.")) :=
  ⟨⟨by decide, (c8_amortised_rate (1/20) 3).1 (by decide)⟩,
   ⟨by decide, (c8_amortised_rate (1/20) (-1)).2.2 (by decide)⟩⟩

/-- C9: the interest-only balance query compares the period with the total
repayment count only for equality, so it returns the full loan amount at
every period different from `N`, including periods beyond `N` and negative
periods. -/
theorem c9_interest_only_balance_off_term (self : LoanData) (period : ℚ)
    (h : period ≠ self.total_repayments) :
    InterestOnlyLoan.calculate_balance_at_period self period =
      self.loan_amount := by
  simp [InterestOnlyLoan.calculate_balance_at_period, h]

/-- C9 witness: for the scenario loan (`L = 1000`, `R = 0.05`, `N = 6`),
the balance is still `1000` at period `7` and at period `-1`. -/
theorem c9_witness :
    ((7:ℚ) ≠ 6 ∧ InterestOnlyLoan.calculate_balance_at_period
      ⟨1000, 1/20, 6, 50, .BEFORE, .VARIABLE⟩ 7 = 1000) ∧
    ((-1:ℚ) ≠ 6 ∧ InterestOnlyLoan.calculate_balance_at_period
      ⟨1000, 1/20, 6, 50, .BEFORE, .VARIABLE⟩ (-1) = 1000) :=
  ⟨⟨by norm_num, c9_interest_only_balance_off_term
      ⟨1000, 1/20, 6, 50, .BEFORE, .VARIABLE⟩ 7 (by norm_num)⟩,
   ⟨by norm_num, c9_interest_only_balance_off_term
      ⟨1000, 1/20, 6, 50, .BEFORE, .VARIABLE⟩ (-1) (by norm_num)⟩⟩

/-- C10: the fixed-repayment interest and principal queries evaluate the
balance at `period - 1`, so for every `period ≤ 0` they hit the
amortised-rate primitive's negative-period assertion (as does the balance
query itself for `period < 0`); for `period ≥ 1` both queries succeed. -/
theorem c10_fixed_repayment_period_guard (self : LoanData) (period : ℤ) :
    (period ≤ 0 →
      FixedRepaymentLoan.calculate_repayment_interest_at_period self period =
        .error (.assertionError "The amortise rate period has to be positive.")) ∧
    (period ≤ 0 →
      FixedRepaymentLoan.calculate_repayment_principal_at_period self period =
        .error (.assertionError "The amortise rate period has to be positive.")) ∧
    (period < 0 →
      FixedRepaymentLoan.calculate_balance_at_period self period =
        .error (.assertionError "The amortise rate period has to be positive.")) ∧
    (1 ≤ period → ∃ interest principal,
      FixedRepaymentLoan.calculate_repayment_interest_at_period self period =
        .ok interest ∧
      FixedRepaymentLoan.calculate_repayment_principal_at_period self period =
        .ok principal) := by
  refine ⟨fun h => ?_, fun h => ?_, fun h => ?_, fun h => ?_⟩
  · simp [FixedRepaymentLoan.calculate_repayment_interest_at_period,
      FixedRepaymentLoan.calculate_balance_at_period, calculate_amortised_rate,
      show period - 1 < 0 by omega]
  · simp [FixedRepaymentLoan.calculate_repayment_principal_at_period,
      FixedRepaymentLoan.calculate_repayment_interest_at_period,
      FixedRepaymentLoan.calculate_balance_at_period, calculate_amortised_rate,
      show period - 1 < 0 by omega]
  · simp [FixedRepaymentLoan.calculate_balance_at_period,
      calculate_amortised_rate, h]
  · have hn : ¬(period - 1 < 0) := by omega
    have hi : FixedRepaymentLoan.calculate_repayment_interest_at_period self
        period =
        .ok ((self.loan_amount * (1 + self.interest_rate) ^ (period - 1) -
          self.periodic_repayment *
            self.interest_rate ^ (self.before_or_after.value - 1) *
            ((1 + self.interest_rate) ^ (period - 1) - 1)) *
          self.interest_rate) := by
      simp [FixedRepaymentLoan.calculate_repayment_interest_at_period,
        FixedRepaymentLoan.calculate_balance_at_period,
        calculate_amortised_rate, hn]
    exact ⟨_, self.periodic_repayment -
      (self.loan_amount * (1 + self.interest_rate) ^ (period - 1) -
        self.periodic_repayment *
          self.interest_rate ^ (self.before_or_after.value - 1) *
          ((1 + self.interest_rate) ^ (period - 1) - 1)) * self.interest_rate,
      hi, by
        simp [FixedRepaymentLoan.calculate_repayment_principal_at_period, hi]⟩

/-- C10 witness: for a concrete fixed-repayment loan, the interest query
fails at period `0`, the balance query fails at period `-1`, and the
interest query succeeds at period `1`. -/
theorem c10_witness :
    ((0:ℤ) ≤ 0 ∧ FixedRepaymentLoan.calculate_repayment_interest_at_period
      ⟨1000, 1/20, 15, 100, .BEFORE, .VARIABLE⟩ 0 =
        .error (.assertionError "The amortise rate period has to be positive.")) ∧
    ((-1:ℤ) < 0 ∧ FixedRepaymentLoan.calculate_balance_at_period
      ⟨1000, 1/20, 15, 100, .BEFORE, .VARIABLE⟩ (-1) =
        .error (.assertionError "The amortise rate period has to be positive.")) ∧
    FixedRepaymentLoan.calculate_repayment_interest_at_period
      ⟨1000, 1/20, 15, 100, .BEFORE, .VARIABLE⟩ 1 = .ok 50 :=
  ⟨⟨by decide, (c10_fixed_repayment_period_guard
      ⟨1000, 1/20, 15, 100, .BEFORE, .VARIABLE⟩ 0).1 (by decide)⟩,
   ⟨by decide, (c10_fixed_repayment_period_guard
      ⟨1000, 1/20, 15, 100, .BEFORE, .VARIABLE⟩ (-1)).2.2.1 (by decide)⟩,
   by
    simp [FixedRepaymentLoan.calculate_repayment_interest_at_period,
      FixedRepaymentLoan.calculate_balance_at_period, calculate_amortised_rate,
      InterestApplyMethod.value]
    norm_num⟩

/-- C6: the interest-only balance is the full loan amount at every period
`0 ≤ n < N` and `0` at `n = N`; in particular the scenario loan built from
`L = 1000`, `R = 0.05`, `N = 6` (periodic repayment derived as `50`) has
balance `1000` at period `5` and `0` at period `6`. -/
theorem c6_interest_only_balance :
    (∀ (self : LoanData) (n : ℚ), 0 ≤ n → n < self.total_repayments →
      InterestOnlyLoan.calculate_balance_at_period self n = self.loan_amount) ∧
    (∀ self : LoanData,
      InterestOnlyLoan.calculate_balance_at_period self self.total_repayments
        = 0) ∧
    Loan.build .INTEREST_ONLY (some 1000) (some (1/20)) (some 6) none
      .BEFORE .VARIABLE = .ok ⟨1000, 1/20, 6, 50, .BEFORE, .VARIABLE⟩ ∧
    InterestOnlyLoan.calculate_balance_at_period
      ⟨1000, 1/20, 6, 50, .BEFORE, .VARIABLE⟩ 5 = 1000 ∧
    InterestOnlyLoan.calculate_balance_at_period
      ⟨1000, 1/20, 6, 50, .BEFORE, .VARIABLE⟩ 6 = 0 := by
  refine ⟨fun self n _ hlt => ?_, fun self => ?_, ?_, ?_, ?_⟩
  · simp [InterestOnlyLoan.calculate_balance_at_period, ne_of_lt hlt]
  · simp [InterestOnlyLoan.calculate_balance_at_period]
  · simp only [Loan.build, calculate_amortised_rate_opt, truthy_decimal,
      truthy_int, build__calculate_fixed_periodic_repayment,
      InterestOnlyLoan.build__calculate_fixed_periodic_repayment,
      InterestOnlyLoan.calculate_fixed_periodic_repayment, Loan.build__all]
    norm_num
  · norm_num [InterestOnlyLoan.calculate_balance_at_period]
  · norm_num [InterestOnlyLoan.calculate_balance_at_period]

/-- C6 witness: the universally quantified clauses instantiated on the
scenario loan. -/
theorem c6_witness :
    ((0:ℚ) ≤ 5 ∧ (5:ℚ) < 6 ∧ InterestOnlyLoan.calculate_balance_at_period
      ⟨1000, 1/20, 6, 50, .BEFORE, .VARIABLE⟩ 5 = 1000) ∧
    InterestOnlyLoan.calculate_balance_at_period
      ⟨1000, 1/20, 6, 50, .BEFORE, .VARIABLE⟩ 6 = 0 :=
  ⟨⟨by norm_num, by norm_num, c6_interest_only_balance.1
      ⟨1000, 1/20, 6, 50, .BEFORE, .VARIABLE⟩ 5 (by norm_num) (by norm_num)⟩,
   c6_interest_only_balance.2.1 ⟨1000, 1/20, 6, 50, .BEFORE, .VARIABLE⟩⟩

/-- C7: both the `principal_repayment` property and the fixed-principal
periodic-repayment solver default to `L/N`; a supplied custom value is
returned unchanged when it is at most `L/N` and rejected with a
`ValueError` reporting both values to four decimal places when it exceeds
`L/N`. -/
theorem c7_fixed_principal_custom_bound (self : LoanData) (L : ℚ) (N : ℤ)
    (c : ℚ) :
    FixedPrincipalLoan.principal_repayment self none =
      .ok (self.loan_amount / self.total_repayments) ∧
    (c ≤ self.loan_amount / self.total_repayments →
      FixedPrincipalLoan.principal_repayment self (some c) = .ok c) ∧
    (self.loan_amount / self.total_repayments < c →
      FixedPrincipalLoan.principal_repayment self (some c) =
        .error (.valueError (custom_periodic_repayment_error_msg c
          (self.loan_amount / self.total_repayments)))) ∧
    FixedPrincipalLoan.calculate_fixed_periodic_repayment L N none =
      .ok (L / (N : ℚ)) ∧
    (c ≤ L / (N : ℚ) →
      FixedPrincipalLoan.calculate_fixed_periodic_repayment L N (some c) =
        .ok c) ∧
    (L / (N : ℚ) < c →
      FixedPrincipalLoan.calculate_fixed_periodic_repayment L N (some c) =
        .error (.valueError
          (custom_periodic_repayment_error_msg c (L / (N : ℚ))))) := by
  refine ⟨?_, fun h => ?_, fun h => ?_, ?_, fun h => ?_, fun h => ?_⟩
  · simp [FixedPrincipalLoan.principal_repayment]
  · simp [FixedPrincipalLoan.principal_repayment, not_lt.mpr h]
  · simp [FixedPrincipalLoan.principal_repayment, h]
  · simp [FixedPrincipalLoan.calculate_fixed_periodic_repayment]
  · simp [FixedPrincipalLoan.calculate_fixed_periodic_repayment, not_lt.mpr h]
  · simp [FixedPrincipalLoan.calculate_fixed_periodic_repayment, h]

/-- C7 witness: for `L = 1000`, `N = 6`, the custom value `200` exceeds
`L/N` and is rejected with the message carrying `200.0000` and
`166.6667`. -/
theorem c7_witness :
    ((1000:ℚ)/6 < 200) ∧
    FixedPrincipalLoan.principal_repayment
      ⟨1000, 1/20, 6, 50, .BEFORE, .VARIABLE⟩ (some 200) =
      .error (.valueError
        "The custom periodic repayment amount, 200.0000, exceeds the maximum value allowed by the loan value and the number of repayments, 166.6667") := by
  have h := (c7_fixed_principal_custom_bound
    ⟨1000, 1/20, 6, 50, .BEFORE, .VARIABLE⟩ 1000 6 200).2.2.1 (by norm_num)
  refine ⟨by norm_num, h.trans ?_⟩
  have h200 : format_4f 200 = "200.0000" := by
    have hfl : ⌊(200 * 10000 : ℚ)⌋ = 2000000 := by
      rw [Int.floor_eq_iff]; norm_num
    simp only [format_4f, hfl]
    norm_num
    rfl
  have h166 : format_4f (1000/6) = "166.6667" := by
    have hfl : ⌊(1000/6 * 10000 : ℚ)⌋ = 1666666 := by
      rw [Int.floor_eq_iff]; norm_num
    simp only [format_4f, hfl]
    norm_num
    rfl
  simp only [custom_periodic_repayment_error_msg, h200, h166]
  rfl

/-- C2 (amended): with all four core parameters supplied (nonzero rate,
nonnegative count, so the amortised-rate precomputation succeeds), `build`
fails with the `ValueError` "No validation for all not None arguments
yet.".  With more than one parameter missing it always fails with exactly
the error `build_arity_error` describes — a `TypeError` from the
amortised-rate precomputation when the count is missing, or when the
count is fine but the rate is missing or zero; the amortised-rate
assertion when the supplied count is negative; otherwise the bare
`assert`'s messageless `AssertionError` — and that error is never the
`ValueError` the spec calls InvalidArgument, and never a loan. -/
theorem c2_build_arity :
    (∀ (cls : RepaymentType) (a r : ℚ) (t : ℤ) (p : ℚ)
        (b : InterestApplyMethod) (rt : InterestRateType), r ≠ 0 → 0 ≤ t →
      Loan.build cls (some a) (some r) (some t) (some p) b rt =
        .error (.valueError "No validation for all not None arguments yet.")) ∧
    (∀ (cls : RepaymentType) (la ir : Option ℚ) (tr : Option ℤ)
        (pr : Option ℚ) (b : InterestApplyMethod) (rt : InterestRateType),
      2 ≤ noneCount la ir tr pr →
      Loan.build cls la ir tr pr b rt = .error (build_arity_error ir tr) ∧
      PyError.is_value_error (build_arity_error ir tr) = false) := by
  constructor
  · intro cls a r t p b rt hr ht
    simp [Loan.build, calculate_amortised_rate_opt, truthy_decimal,
      not_lt.mpr ht, hr]
  · intro cls la ir tr pr b rt hcount
    rcases tr with _ | t
    · exact ⟨by simp [Loan.build, calculate_amortised_rate_opt,
        build_arity_error], rfl⟩
    · by_cases ht : t < 0
      · constructor
        · simp [Loan.build, calculate_amortised_rate_opt,
            build_arity_error, ht]
        · simp [build_arity_error, ht, PyError.is_value_error]
      · rcases ir with _ | r
        · constructor
          · simp [Loan.build, calculate_amortised_rate_opt, truthy_decimal,
              build_arity_error, ht]
          · simp [build_arity_error, truthy_decimal, ht,
              PyError.is_value_error]
        · by_cases hr : r = 0
          · constructor
            · simp [Loan.build, calculate_amortised_rate_opt, truthy_decimal,
                build_arity_error, ht, hr]
            · simp [build_arity_error, truthy_decimal, ht, hr,
                PyError.is_value_error]
          · rcases la with _ | a
            · rcases pr with _ | p
              · constructor
                · simp [Loan.build, calculate_amortised_rate_opt,
                    truthy_decimal, build_arity_error, ht, hr]
                · simp [build_arity_error, truthy_decimal, ht, hr,
                    PyError.is_value_error]
              · simp [noneCount] at hcount
            · rcases pr with _ | p
              · simp [noneCount] at hcount
              · simp [noneCount] at hcount

/-- C2 witness: a concrete all-supplied call fails with the `ValueError`,
and a concrete call missing two parameters fails with exactly the
classified error, which is not a `ValueError`. -/
theorem c2_witness :
    ((1/20:ℚ) ≠ 0 ∧ (0:ℤ) ≤ 6 ∧
      Loan.build .FIXED_REPAYMENT (some 1000) (some (1/20)) (some 6)
        (some 100) .BEFORE .VARIABLE =
        .error (.valueError "No validation for all not None arguments yet.")) ∧
    (2 ≤ noneCount none (some (1/20)) (some 6) none ∧
      Loan.build .FIXED_REPAYMENT none (some (1/20)) (some 6) none
        .BEFORE .VARIABLE = .error (build_arity_error (some (1/20)) (some 6)) ∧
      PyError.is_value_error (build_arity_error (some (1/20)) (some 6)) =
        false) :=
  ⟨⟨by norm_num, by decide, c2_build_arity.1 .FIXED_REPAYMENT 1000 (1/20) 6
      100 .BEFORE .VARIABLE (by norm_num) (by decide)⟩,
   ⟨by decide, (c2_build_arity.2 .FIXED_REPAYMENT none (some (1/20)) (some 6)
      none .BEFORE .VARIABLE (by decide)).1,
    (c2_build_arity.2 .FIXED_REPAYMENT none (some (1/20)) (some 6)
      none .BEFORE .VARIABLE (by decide)).2⟩⟩

/-- C2 counterexample: the claim says a call with more than one missing
parameter fails with an InvalidArgument (`ValueError`); but a call missing
the loan amount and the periodic repayment fails with the bare `assert`'s
`AssertionError`, which is not a `ValueError`. -/
theorem c2_cex :
    Loan.build .FIXED_REPAYMENT none (some (1/20)) (some 6) none
      .BEFORE .VARIABLE = .error (.assertionError "") ∧
    PyError.is_value_error (.assertionError "") = false := by
  constructor
  · simp [Loan.build, calculate_amortised_rate_opt, truthy_decimal, truthy_int]
  · rfl

/-- C5 (amended): a `build` call with the interest rate missing and the
other three parameters supplied (count nonnegative) always fails, for every
variant — but with a `TypeError` raised while precomputing the amortised
rate from the missing rate, not with the `NotImplementedError` of the
unimplemented interest-rate formula, which is never reached. -/
theorem c5_build_missing_rate (cls : RepaymentType) (a : ℚ) (t : ℤ) (p : ℚ)
    (b : InterestApplyMethod) (rt : InterestRateType) (ht : 0 ≤ t) :
    Loan.build cls (some a) none (some t) (some p) b rt =
      .error .typeError := by
  simp [Loan.build, calculate_amortised_rate_opt, truthy_decimal,
    not_lt.mpr ht]

/-- C5 witness: a concrete interest-rate-missing call on each variant. -/
theorem c5_witness :
    ((0:ℤ) ≤ 6 ∧ Loan.build .FIXED_REPAYMENT (some 1000) none (some 6)
      (some 100) .BEFORE .VARIABLE = .error .typeError) ∧
    Loan.build .INTEREST_ONLY (some 900) none (some 5) (some 80)
      .AFTER .FIXED = .error .typeError :=
  ⟨⟨by decide, c5_build_missing_rate .FIXED_REPAYMENT 1000 6 100 .BEFORE
      .VARIABLE (by decide)⟩,
   c5_build_missing_rate .INTEREST_ONLY 900 5 80 .AFTER .FIXED (by decide)⟩

/-- C5 counterexample: the claim says the failure is a NotImplemented
error; the concrete call fails with a `TypeError`, which is not a
`NotImplementedError`. -/
theorem c5_cex :
    Loan.build .FIXED_REPAYMENT (some 1000) none (some 6) (some 100)
      .BEFORE .VARIABLE = .error .typeError ∧
    PyError.is_not_implemented .typeError = false :=
  ⟨rfl, rfl⟩

/-- `ln 2 / ln 1.05` lies in `(14, 15]`, so its ceiling is `15`: the
intended repayment count of the repository's own fixed-repayment test. -/
theorem ceil_log_bound_fifteen : ⌈Real.log 2 / Real.log (21/20)⌉ = (15:ℤ) := by
  have hlogpos : 0 < Real.log (21/20) := Real.log_pos (by norm_num)
  have hup : Real.log 2 ≤ 15 * Real.log (21/20) := by
    have h2 : (2:ℝ) ≤ (21/20) ^ (15:ℕ) := by norm_num
    have hlog := Real.log_le_log (by norm_num) h2
    rwa [Real.log_pow, Nat.cast_ofNat] at hlog
  have hlo : 14 * Real.log (21/20) < Real.log 2 := by
    have h2 : ((21:ℝ)/20) ^ (14:ℕ) < 2 := by norm_num
    have hlog := Real.log_lt_log (by positivity) h2
    rwa [Real.log_pow, Nat.cast_ofNat] at hlog
  rw [Int.ceil_eq_iff]
  constructor
  · push_cast
    rw [lt_div_iff₀ hlogpos]
    linarith
  · push_cast
    rw [div_le_iff₀ hlogpos]
    linarith

/-- C3: building a fixed-repayment loan from `L = 1000`, `R = 0.05`,
`P = 100` with the total-repayments count omitted raises a `TypeError`
(the amortised-rate precomputation compares the raw `None` count with
`0`), even though the total-repayments solver itself would return `15` on
these values — the result the repository's own test asserts. -/
theorem c3_missing_total_repayments_crash :
    Loan.build .FIXED_REPAYMENT (some 1000) (some (1/20)) none (some 100)
      .BEFORE .VARIABLE = .error .typeError ∧
    FixedRepaymentLoan.calculate_total_repayments 1000 100 (1/20) .BEFORE =
      .ok 15 := by
  constructor
  · rfl
  · have hd : ¬((100:ℚ) - 1000 * (1/20) ^
        ((1:ℤ) - InterestApplyMethod.BEFORE.value) ≤ 0) := by
      norm_num [InterestApplyMethod.value]
    simp only [FixedRepaymentLoan.calculate_total_repayments, hd, if_false]
    norm_num [InterestApplyMethod.value]
    rw [ceil_log_bound_fifteen]

/-- C4: for every `L`, `P`, `R` and timing flag `b`, the fixed-repayment
total-repayments solver returns the spec's closed form
`ceil(ln(P / (P - L * R^(1-b))) / ln(1+R))` whenever the denominator
`P - L * R^(1-b)` is strictly positive, and fails with the
"unbounded number of repayments" `ValueError` whenever the denominator is
at most `0`. -/
theorem c4_total_repayments_solver (L P R : ℚ) (b : InterestApplyMethod) :
    (0 < P - L * R ^ (1 - b.value) →
      FixedRepaymentLoan.calculate_total_repayments L P R b =
        .ok (spec_fixed_repayment_total_repayments L P R b.value)) ∧
    (P - L * R ^ (1 - b.value) ≤ 0 →
      FixedRepaymentLoan.calculate_total_repayments L P R b =
        .error (.valueError
          "The values of the loan amount, interest rate, and periodic repayment lead to an unbounded number of repayments.")) := by
  constructor
  · intro h
    have hd : ¬(P - L * R ^ (1 - b.value) ≤ 0) := not_le.mpr h
    simp only [FixedRepaymentLoan.calculate_total_repayments, hd, if_false,
      spec_fixed_repayment_total_repayments]
    have e1 : ((P - L * R ^ ((1:ℤ) - b.value) : ℚ) : ℝ) =
        (P:ℝ) - (L:ℝ) * (R:ℝ) ^ ((1:ℤ) - b.value) := by
      push_cast
      ring
    have e2 : ((R:ℝ) + 1) = 1 + (R:ℝ) := by ring
    rw [e1, e2]
  · intro h
    simp only [FixedRepaymentLoan.calculate_total_repayments, h, if_true]

/-- C4 witness: with `L = 1000`, `P = 100`, `R = 0.05`, timing BEFORE, the
denominator is `50 > 0` and the solver returns the spec's closed form;
with the claim's example `L = 1000`, `P = 50`, `R = 0.05`, the denominator
is `0` and the solver fails with the `ValueError`. -/
theorem c4_witness :
    ((0:ℚ) < 100 - 1000 * (1/20) ^
        ((1:ℤ) - InterestApplyMethod.BEFORE.value) ∧
      FixedRepaymentLoan.calculate_total_repayments 1000 100 (1/20) .BEFORE =
        .ok (spec_fixed_repayment_total_repayments 1000 100 (1/20)
          InterestApplyMethod.BEFORE.value)) ∧
    ((50:ℚ) - 1000 * (1/20) ^ ((1:ℤ) - InterestApplyMethod.BEFORE.value) ≤ 0 ∧
      FixedRepaymentLoan.calculate_total_repayments 1000 50 (1/20) .BEFORE =
        .error (.valueError
          "The values of the loan amount, interest rate, and periodic repayment lead to an unbounded number of repayments.")) :=
  ⟨⟨by norm_num [InterestApplyMethod.value],
    (by
      have h := (c4_total_repayments_solver 1000 100 (1/20) .BEFORE).1
        (by norm_num [InterestApplyMethod.value])
      push_cast at h
      exact h)⟩,
   ⟨by norm_num [InterestApplyMethod.value],
    (c4_total_repayments_solver 1000 50 (1/20) .BEFORE).2
      (by norm_num [InterestApplyMethod.value])⟩⟩

/-- C1 counterexample: the round-trip law fails when the solved parameter
is the ceiling-rounded total-repayments count.  For a fixed-principal loan
with `L = 1000` and periodic (principal) repayment `P = 300`, solving the
count gives `N = ceil(1000/300) = 4`; re-deriving the periodic repayment
from `L = 1000` and `N = 4` gives `250`, which differs from the original
`300` by `50` — far outside decimal precision. -/
theorem c1_cex :
    FixedPrincipalLoan.calculate_total_repayments 1000 300 none = .ok 4 ∧
    FixedPrincipalLoan.calculate_fixed_periodic_repayment 1000 4 none =
      .ok 250 ∧
    (250:ℚ) ≠ 300 ∧ (300:ℚ) - 250 = 50 := by
  refine ⟨?_, ?_, by norm_num, by norm_num⟩
  · have h : ⌈(1000:ℚ)/300⌉ = 4 := by
      rw [Int.ceil_eq_iff]
      norm_num
    simp [FixedPrincipalLoan.calculate_total_repayments, h]
  · simp only [FixedPrincipalLoan.calculate_fixed_periodic_repayment]
    norm_num

/-- C1 (amended): the round-trip law holds exactly for the algebraic
solvers.  For every `L > 0`, `R > 0`, `P > 0`, `N ≥ 1` and timing `b`,
with `A = (1+R)^N` the total amortised rate: composing the
fixed-repayment periodic-repayment solver with the loan-amount solver
returns `L`; the converse composition returns `P`; the fixed-principal
periodic-repayment solver composed with the loan-amount solver returns
`L`; and the interest-only solvers invert each other.  (The law fails for
the ceiling-rounded total-repayments solvers, per the counterexample.) -/
theorem c1_roundtrip_exact (L R P : ℚ) (N : ℕ) (b : InterestApplyMethod)
    (hL : 0 < L) (hR : 0 < R) (hN : 1 ≤ N) (hP : 0 < P) :
    FixedRepaymentLoan.calculate_loan_amount R
      (FixedRepaymentLoan.calculate_fixed_periodic_repayment L R
        ((1+R)^N) b) ((1+R)^N) b = L ∧
    FixedRepaymentLoan.calculate_fixed_periodic_repayment
      (FixedRepaymentLoan.calculate_loan_amount R P ((1+R)^N) b) R
      ((1+R)^N) b = P ∧
    FixedPrincipalLoan.calculate_fixed_periodic_repayment L (N:ℤ) none =
      .ok (L / ((N:ℤ):ℚ)) ∧
    FixedPrincipalLoan.calculate_loan_amount (N:ℤ) (L / ((N:ℤ):ℚ)) none =
      .ok L ∧
    InterestOnlyLoan.calculate_loan_amount
      (InterestOnlyLoan.calculate_fixed_periodic_repayment L R) R = L ∧
    InterestOnlyLoan.calculate_fixed_periodic_repayment
      (InterestOnlyLoan.calculate_loan_amount P R) R = P := by
  have hR0 : R ≠ 0 := ne_of_gt hR
  have hA : 1 < (1+R)^N := one_lt_pow₀ (by linarith) (by omega)
  have hA0 : ((1+R)^N : ℚ) ≠ 0 := by positivity
  have hA1 : ((1+R)^N : ℚ) - 1 ≠ 0 := sub_ne_zero.mpr (ne_of_gt hA)
  have key : R ^ ((1:ℤ) - b.value) * R ^ (b.value - 1) = 1 := by
    rw [← zpow_add₀ hR0, show (1 - b.value) + (b.value - 1) = 0 by ring,
      zpow_zero]
  have hN0 : ((N:ℤ):ℚ) ≠ 0 := by
    have : (0:ℤ) < (N:ℤ) := by omega
    exact_mod_cast ne_of_gt this
  refine ⟨?_, ?_, ?_, ?_, ?_, ?_⟩
  · unfold FixedRepaymentLoan.calculate_loan_amount
      FixedRepaymentLoan.calculate_fixed_periodic_repayment
    have expand : R ^ ((1:ℤ) - b.value) * L * (1+R)^N / ((1+R)^N - 1) *
        R ^ (b.value - 1) * ((1+R)^N - 1) / (1+R)^N =
        (R ^ ((1:ℤ) - b.value) * R ^ (b.value - 1)) * L *
          (((1+R)^N - 1) * ((1+R)^N - 1)⁻¹) * ((1+R)^N * ((1+R)^N)⁻¹) := by
      ring
    rw [expand, key, mul_inv_cancel₀ hA1, mul_inv_cancel₀ hA0]
    ring
  · unfold FixedRepaymentLoan.calculate_loan_amount
      FixedRepaymentLoan.calculate_fixed_periodic_repayment
    have expand : R ^ ((1:ℤ) - b.value) *
        (P * R ^ (b.value - 1) * ((1+R)^N - 1) / (1+R)^N) * (1+R)^N /
        ((1+R)^N - 1) =
        (R ^ ((1:ℤ) - b.value) * R ^ (b.value - 1)) * P *
          (((1+R)^N - 1) * ((1+R)^N - 1)⁻¹) * ((1+R)^N * ((1+R)^N)⁻¹) := by
      ring
    rw [expand, key, mul_inv_cancel₀ hA1, mul_inv_cancel₀ hA0]
    ring
  · simp [FixedPrincipalLoan.calculate_fixed_periodic_repayment]
  · simp only [FixedPrincipalLoan.calculate_loan_amount]
    rw [div_mul_cancel₀ _ hN0]
  · unfold InterestOnlyLoan.calculate_loan_amount
      InterestOnlyLoan.calculate_fixed_periodic_repayment
    exact mul_div_cancel_right₀ L hR0
  · unfold InterestOnlyLoan.calculate_loan_amount
      InterestOnlyLoan.calculate_fixed_periodic_repayment
    exact div_mul_cancel₀ P hR0

/-- C1 witness: the amended round trips instantiated at `L = 1000`,
`R = 0.05`, `P = 100`, `N = 6`, timing BEFORE. -/
theorem c1_witness :
    ((0:ℚ) < 1000 ∧ (0:ℚ) < 1/20 ∧ 1 ≤ 6 ∧ (0:ℚ) < 100) ∧
    FixedRepaymentLoan.calculate_loan_amount (1/20)
      (FixedRepaymentLoan.calculate_fixed_periodic_repayment 1000 (1/20)
        ((1+1/20)^6) .BEFORE) ((1+1/20)^6) .BEFORE = 1000 ∧
    InterestOnlyLoan.calculate_loan_amount
      (InterestOnlyLoan.calculate_fixed_periodic_repayment 1000 (1/20))
      (1/20) = 1000 :=
  ⟨⟨by norm_num, by norm_num, by norm_num, by norm_num⟩,
   (c1_roundtrip_exact 1000 (1/20) 100 6 .BEFORE (by norm_num) (by norm_num)
     (by norm_num) (by norm_num)).1,
   (c1_roundtrip_exact 1000 (1/20) 100 6 .BEFORE (by norm_num) (by norm_num)
     (by norm_num) (by norm_num)).2.2.2.2.1⟩
